/-
Verification of the weather-dashboard backend core (cache, provider-client
resilience wrapper, alert evaluation loop) against its specification.

The Python source is shallowly embedded: pure functions become Lean
functions, stateful code becomes explicit state passing, time is an
abstract clock in whole seconds (Nat), numeric weather values are
rationals, and exceptions become Option/Except values or explicit
error constructors.
-/
import Mathlib

namespace WeatherBackend

/- ----------------------------------------------------------------
   Circuit breaker.

   Embeds the `circuitbreaker` library state machine as configured in
   src/services/weather_service.py:
     @circuit(failure_threshold=5, recovery_timeout=60)
   The library keeps an internal flag (CLOSED or OPEN), a consecutive
   failure counter, and the monotonic time at which it opened.  The
   derived state reports HALF_OPEN when the internal flag is OPEN but
   the recovery timeout has elapsed.  A call is rejected (fail fast,
   no network call) exactly when the derived state is OPEN.
   ---------------------------------------------------------------- -/

def failureThreshold : Nat := 5

def recoveryTimeout : Nat := 60

inductive BreakerState where
  | closed
  | opened
  | halfOpen
deriving DecidableEq, Repr

structure Breaker where
  stateOpen : Bool
  failureCount : Nat
  openedAt : Nat
deriving DecidableEq, Repr

def Breaker.init : Breaker := ⟨false, 0, 0⟩

def Breaker.state (b : Breaker) (now : Nat) : BreakerState :=
  if b.stateOpen then
    if b.openedAt + recoveryTimeout ≤ now then BreakerState.halfOpen
    else BreakerState.opened
  else BreakerState.closed

/-- Outcome the wrapped network action would have if it were executed. -/
inductive CallOutcome where
  | ok
  | err
deriving DecidableEq, Repr

inductive CallResult where
  | circuitOpenError
  | success
  | upstreamError
deriving DecidableEq, Repr

structure CallStep where
  result : CallResult
  breaker : Breaker
  networkCalled : Bool
deriving DecidableEq, Repr

def Breaker.recordSuccess (b : Breaker) : Breaker :=
  { b with stateOpen := false, failureCount := 0 }

def Breaker.recordFailure (b : Breaker) (now : Nat) : Breaker :=
  let c := b.failureCount + 1
  if failureThreshold ≤ c then ⟨true, c, now⟩
  else { b with failureCount := c }

def Breaker.call (b : Breaker) (now : Nat) (outcome : CallOutcome) : CallStep :=
  if b.state now = BreakerState.opened then
    ⟨CallResult.circuitOpenError, b, false⟩
  else
    match outcome with
    | CallOutcome.ok => ⟨CallResult.success, b.recordSuccess, true⟩
    | CallOutcome.err => ⟨CallResult.upstreamError, b.recordFailure now, true⟩

def Breaker.run (b : Breaker) (events : List (Nat × CallOutcome)) : Breaker :=
  events.foldl (fun s e => (s.call e.1 e.2).breaker) b

lemma Breaker.call_preserves_inv (b : Breaker) (now : Nat) (o : CallOutcome)
    (h : b.stateOpen = true → failureThreshold ≤ b.failureCount) :
    (b.call now o).breaker.stateOpen = true →
      failureThreshold ≤ (b.call now o).breaker.failureCount := by
  unfold Breaker.call
  split
  · exact h
  · cases o with
    | ok => intro hcontra; simp [Breaker.recordSuccess] at hcontra
    | err =>
        unfold Breaker.recordFailure
        by_cases hc : failureThreshold ≤ b.failureCount + 1
        · simp [hc]
        · intro hopen
          simp [hc] at hopen
          exact absurd (Nat.le_succ_of_le (h hopen)) hc

lemma Breaker.run_inv (events : List (Nat × CallOutcome)) (b : Breaker)
    (h : b.stateOpen = true → failureThreshold ≤ b.failureCount) :
    (Breaker.run b events).stateOpen = true →
      failureThreshold ≤ (Breaker.run b events).failureCount := by
  induction events generalizing b with
  | nil => exact h
  | cons e rest ih =>
      exact ih ((b.call e.1 e.2).breaker) (Breaker.call_preserves_inv b e.1 e.2 h)

/-- Claim C1: for every provider operation wrapped by the resilience layer,
the circuit breaker opens after 5 consecutive failures (and not after 4);
while OPEN and inside the 60-second window every call fails fast with
CircuitOpenError without a network call and without changing breaker state;
once the window has elapsed the next call is a trial call that reaches the
network: its success closes the breaker, its failure reopens it with the
60-second timer reset to the trial time, so a further call inside the new
window again fails fast (exactly one trial call per window); and every
reachable OPEN state carries at least 5 recorded consecutive failures. -/
theorem c1_circuit_breaker :
    (∀ t1 t2 t3 t4 t5 : Nat,
      (Breaker.run Breaker.init
        [(t1, CallOutcome.err), (t2, CallOutcome.err), (t3, CallOutcome.err),
         (t4, CallOutcome.err), (t5, CallOutcome.err)]).stateOpen = true ∧
      (Breaker.run Breaker.init
        [(t1, CallOutcome.err), (t2, CallOutcome.err), (t3, CallOutcome.err),
         (t4, CallOutcome.err), (t5, CallOutcome.err)]).openedAt = t5) ∧
    (∀ t1 t2 t3 t4 : Nat,
      (Breaker.run Breaker.init
        [(t1, CallOutcome.err), (t2, CallOutcome.err), (t3, CallOutcome.err),
         (t4, CallOutcome.err)]).stateOpen = false) ∧
    (∀ (b : Breaker) (now : Nat) (o : CallOutcome),
      b.stateOpen = true → now < b.openedAt + recoveryTimeout →
      b.call now o = ⟨CallResult.circuitOpenError, b, false⟩) ∧
    (∀ (b : Breaker) (now : Nat),
      b.stateOpen = true → b.openedAt + recoveryTimeout ≤ now →
      (b.call now CallOutcome.ok).networkCalled = true ∧
      (b.call now CallOutcome.ok).result = CallResult.success ∧
      (b.call now CallOutcome.ok).breaker.stateOpen = false) ∧
    (∀ (b : Breaker) (now : Nat),
      b.stateOpen = true → b.openedAt + recoveryTimeout ≤ now →
      failureThreshold ≤ b.failureCount →
      (b.call now CallOutcome.err).networkCalled = true ∧
      (b.call now CallOutcome.err).breaker.stateOpen = true ∧
      (b.call now CallOutcome.err).breaker.openedAt = now) ∧
    (∀ (b : Breaker) (now now2 : Nat),
      b.stateOpen = true → b.openedAt + recoveryTimeout ≤ now →
      failureThreshold ≤ b.failureCount → now2 < now + recoveryTimeout →
      ((b.call now CallOutcome.err).breaker.call now2 CallOutcome.ok).result =
        CallResult.circuitOpenError ∧
      ((b.call now CallOutcome.err).breaker.call now2 CallOutcome.ok).networkCalled = false) ∧
    (∀ events : List (Nat × CallOutcome),
      (Breaker.run Breaker.init events).stateOpen = true →
      failureThreshold ≤ (Breaker.run Breaker.init events).failureCount) := by
  refine ⟨?_, ?_, ?_, ?_, ?_, ?_, ?_⟩
  · intro t1 t2 t3 t4 t5
    simp [Breaker.run, Breaker.init, Breaker.call, Breaker.state,
      Breaker.recordFailure, failureThreshold]
  · intro t1 t2 t3 t4
    simp [Breaker.run, Breaker.init, Breaker.call, Breaker.state,
      Breaker.recordFailure, failureThreshold]
  · intro b now o hopen hlt
    unfold Breaker.call Breaker.state
    simp [hopen, Nat.not_le.mpr hlt]
  · intro b now hopen hle
    unfold Breaker.call Breaker.state
    simp [hopen, hle, Breaker.recordSuccess]
  · intro b now hopen hle hcount
    unfold Breaker.call Breaker.state
    simp [hopen, hle, Breaker.recordFailure, Nat.le_succ_of_le hcount]
  · intro b now now2 hopen hle hcount hlt
    have hstep : (b.call now CallOutcome.err).breaker =
        ⟨true, b.failureCount + 1, now⟩ := by
      unfold Breaker.call Breaker.state
      simp [hopen, hle, Breaker.recordFailure, Nat.le_succ_of_le hcount]
    rw [hstep]
    unfold Breaker.call Breaker.state
    simp [Nat.not_le.mpr hlt]
  · intro events
    exact Breaker.run_inv events Breaker.init (by intro h; simp [Breaker.init] at h)

/-- Witness instantiating every hypothesis of the C1 theorem at concrete
inputs: a breaker opened at time 100 with 5 recorded failures, probed inside
the window at 130, at the window boundary 160, and again at 170 after a
failed trial at 160. -/
theorem c1_circuit_breaker_witness :
    ((Breaker.run Breaker.init
        [(0, CallOutcome.err), (1, CallOutcome.err), (2, CallOutcome.err),
         (3, CallOutcome.err), (4, CallOutcome.err)]).stateOpen = true ∧
      (Breaker.run Breaker.init
        [(0, CallOutcome.err), (1, CallOutcome.err), (2, CallOutcome.err),
         (3, CallOutcome.err), (4, CallOutcome.err)]).openedAt = 4) ∧
    (Breaker.run Breaker.init
        [(0, CallOutcome.err), (1, CallOutcome.err), (2, CallOutcome.err),
         (3, CallOutcome.err)]).stateOpen = false ∧
    (Breaker.call ⟨true, 5, 100⟩ 130 CallOutcome.err =
      ⟨CallResult.circuitOpenError, ⟨true, 5, 100⟩, false⟩) ∧
    ((Breaker.call ⟨true, 5, 100⟩ 160 CallOutcome.ok).networkCalled = true ∧
      (Breaker.call ⟨true, 5, 100⟩ 160 CallOutcome.ok).result = CallResult.success ∧
      (Breaker.call ⟨true, 5, 100⟩ 160 CallOutcome.ok).breaker.stateOpen = false) ∧
    ((Breaker.call ⟨true, 5, 100⟩ 160 CallOutcome.err).networkCalled = true ∧
      (Breaker.call ⟨true, 5, 100⟩ 160 CallOutcome.err).breaker.stateOpen = true ∧
      (Breaker.call ⟨true, 5, 100⟩ 160 CallOutcome.err).breaker.openedAt = 160) ∧
    (((Breaker.call ⟨true, 5, 100⟩ 160 CallOutcome.err).breaker.call 170
        CallOutcome.ok).result = CallResult.circuitOpenError ∧
      ((Breaker.call ⟨true, 5, 100⟩ 160 CallOutcome.err).breaker.call 170
        CallOutcome.ok).networkCalled = false) ∧
    ((Breaker.run Breaker.init
        [(0, CallOutcome.err), (1, CallOutcome.err), (2, CallOutcome.err),
         (3, CallOutcome.err), (4, CallOutcome.err)]).stateOpen = true →
      failureThreshold ≤ (Breaker.run Breaker.init
        [(0, CallOutcome.err), (1, CallOutcome.err), (2, CallOutcome.err),
         (3, CallOutcome.err), (4, CallOutcome.err)]).failureCount) :=
  ⟨c1_circuit_breaker.1 0 1 2 3 4,
   c1_circuit_breaker.2.1 0 1 2 3,
   c1_circuit_breaker.2.2.1 ⟨true, 5, 100⟩ 130 CallOutcome.err rfl (by decide),
   c1_circuit_breaker.2.2.2.1 ⟨true, 5, 100⟩ 160 rfl (by decide),
   c1_circuit_breaker.2.2.2.2.1 ⟨true, 5, 100⟩ 160 rfl (by decide) (by decide),
   c1_circuit_breaker.2.2.2.2.2.1 ⟨true, 5, 100⟩ 160 170 rfl (by decide) (by decide)
     (by decide),
   c1_circuit_breaker.2.2.2.2.2.2
     [(0, CallOutcome.err), (1, CallOutcome.err), (2, CallOutcome.err),
      (3, CallOutcome.err), (4, CallOutcome.err)]⟩

/- ----------------------------------------------------------------
   Retry wrapper.

   Embeds the `tenacity` retry decorator as configured in
   src/services/weather_service.py:
     @retry(stop=stop_after_attempt(3),
            wait=wait_exponential(multiplier=1, min=1, max=10))
   stop_after_attempt(3) stops once the failed attempt number reaches 3;
   wait_exponential computes max(max(0, min), min(multiplier * 2 ^ n, max))
   where n is the number of the attempt that just failed; no retry
   predicate is given, so the library default applies: retry on every
   exception; no reraise flag is given, so exhaustion raises RetryError
   carrying the last exception.
   ---------------------------------------------------------------- -/

/-- Classification of an exception raised by one upstream attempt:
network errors, timeouts and 5xx responses are the transient class the
specification singles out; everything else is nonTransient. -/
inductive ExcClass where
  | transient
  | nonTransient
deriving DecidableEq, Repr

inductive AttemptResult (α : Type) where
  | ok (a : α)
  | exc (c : ExcClass)
deriving DecidableEq, Repr

def maxAttempts : Nat := 3

def retryWait (attemptNumber : Nat) : ℚ :=
  max (max 0 1) (min (1 * 2 ^ attemptNumber) 10)

inductive RetryOutcome (α : Type) where
  | success (a : α)
  | retryError (last : ExcClass)
deriving DecidableEq, Repr

structure RetryRun (α : Type) where
  outcome : RetryOutcome α
  attemptsMade : Nat
  waits : List ℚ
deriving DecidableEq, Repr

def retryFrom {α : Type} (action : Nat → AttemptResult α) : Nat → Nat → RetryRun α
  | _, 0 => ⟨RetryOutcome.retryError ExcClass.nonTransient, 0, []⟩
  | n, fuel + 1 =>
    match action n with
    | AttemptResult.ok a => ⟨RetryOutcome.success a, 1, []⟩
    | AttemptResult.exc c =>
        if maxAttempts ≤ n then ⟨RetryOutcome.retryError c, 1, []⟩
        else
          let rest := retryFrom action (n + 1) fuel
          ⟨rest.outcome, rest.attemptsMade + 1, retryWait n :: rest.waits⟩

def retryCall {α : Type} (action : Nat → AttemptResult α) : RetryRun α :=
  retryFrom action 1 maxAttempts

/-- Action whose first attempt raises a nonTransient exception and whose
second attempt succeeds; used to probe the retry predicate. -/
def nonTransientThenOk : Nat → AttemptResult Nat := fun n =>
  if n = 1 then AttemptResult.exc ExcClass.nonTransient else AttemptResult.ok 7

/-- Counterexample to claim C8 as stated: an attempt that fails with a
NON-transient exception is retried anyway (the wrapper passes no retry
predicate to tenacity, whose default retries every exception), and the
wait before the second attempt is 2 seconds, not 1. -/
theorem c8_retry_counterexample :
    retryCall nonTransientThenOk =
      ⟨RetryOutcome.success 7, 2, [2]⟩ ∧
    nonTransientThenOk 1 = AttemptResult.exc ExcClass.nonTransient := by
  constructor
  · show retryFrom nonTransientThenOk 1 maxAttempts = _
    simp [maxAttempts, retryFrom, nonTransientThenOk, retryWait]
    norm_num
  · rfl

/-- Claim C8 amended: the retry wrapper makes up to 3 attempts total;
it retries on EVERY exception class (not only transient ones); the wait
after the n-th failed attempt is clamp(2 ^ n, 1, 10) seconds, so 2 s
after the first failure and 4 s after the second; after the third failed
attempt no further attempt is made and the run ends in a retry-exhausted
error carrying the last exception. -/
theorem c8_retry_amended {α : Type} :
    (∀ (action : Nat → AttemptResult α) (v : α),
      action 1 = AttemptResult.ok v →
      retryCall action = ⟨RetryOutcome.success v, 1, []⟩) ∧
    (∀ (action : Nat → AttemptResult α) (v : α) (c : ExcClass),
      action 1 = AttemptResult.exc c → action 2 = AttemptResult.ok v →
      retryCall action = ⟨RetryOutcome.success v, 2, [2]⟩) ∧
    (∀ (action : Nat → AttemptResult α) (c1 c2 c3 : ExcClass),
      action 1 = AttemptResult.exc c1 → action 2 = AttemptResult.exc c2 →
      action 3 = AttemptResult.exc c3 →
      retryCall action = ⟨RetryOutcome.retryError c3, 3, [2, 4]⟩) ∧
    (∀ n : Nat, retryWait n = max 1 (min (2 ^ n) 10) ∧
      1 ≤ retryWait n ∧ retryWait n ≤ 10) := by
  refine ⟨?_, ?_, ?_, ?_⟩
  · intro action v h1
    show retryFrom action 1 maxAttempts = _
    simp [maxAttempts, retryFrom, h1]
  · intro action v c h1 h2
    show retryFrom action 1 maxAttempts = _
    simp [maxAttempts, retryFrom, h1, h2, retryWait]
    norm_num
  · intro action c1 c2 c3 h1 h2 h3
    show retryFrom action 1 maxAttempts = _
    simp [maxAttempts, retryFrom, h1, h2, h3, retryWait]
    norm_num
  · intro n
    refine ⟨by simp [retryWait], ?_, ?_⟩
    · simp [retryWait]
    · simp only [retryWait]
      have h2 : (0 : ℚ) ⊔ 1 = 1 := by norm_num
      rw [h2]
      have h10 : (1 : ℚ) ≤ 10 := by norm_num
      exact max_le h10 (min_le_right _ _)

/-- Witness for the amended C8 theorem at concrete actions over Nat. -/
theorem c8_retry_amended_witness :
    retryCall (fun _ => AttemptResult.ok 5) =
      ⟨RetryOutcome.success 5, 1, []⟩ ∧
    retryCall nonTransientThenOk = ⟨RetryOutcome.success 7, 2, [2]⟩ ∧
    retryCall (fun _ => (AttemptResult.exc ExcClass.transient : AttemptResult Nat)) =
      ⟨RetryOutcome.retryError ExcClass.transient, 3, [2, 4]⟩ ∧
    (retryWait 1 = max 1 (min (2 ^ 1) 10) ∧
      1 ≤ retryWait 1 ∧ retryWait 1 ≤ 10) :=
  ⟨(@c8_retry_amended Nat).1 (fun _ => AttemptResult.ok 5) 5 rfl,
   (@c8_retry_amended Nat).2.1 nonTransientThenOk 7 ExcClass.nonTransient rfl rfl,
   (@c8_retry_amended Nat).2.2.1 (fun _ => AttemptResult.exc ExcClass.transient)
     ExcClass.transient ExcClass.transient ExcClass.transient rfl rfl rfl,
   (@c8_retry_amended Nat).2.2.2 1⟩

/- ----------------------------------------------------------------
   Tiered cache.

   Embeds src/services/cache_service.py.  The fast tier is the
   in-process dict pair (_memory_cache, _memory_cache_expiry), the
   shared tier is the Redis client obtained from get_redis().  Both are
   modelled as association lists from key to (payload, absolute expiry
   time); json.dumps/json.loads round-trip faithfully on dict payloads,
   so serialization is modelled as the identity on an abstract payload
   type.  An unreachable shared tier makes every Redis operation raise;
   in both get and set the surrounding try/except swallows that raise.
   ---------------------------------------------------------------- -/

abbrev Key := String

def alistGet {α : Type} (m : List (Key × α × Nat)) (k : Key) : Option (α × Nat) :=
  (m.find? (fun e => e.1 == k)).map (fun e => e.2)

def alistInsert {α : Type} (m : List (Key × α × Nat)) (k : Key) (v : α)
    (exp : Nat) : List (Key × α × Nat) :=
  (k, v, exp) :: m.filter (fun e => ¬ (e.1 == k))

def alistRemove {α : Type} (m : List (Key × α × Nat)) (k : Key) :
    List (Key × α × Nat) :=
  m.filter (fun e => ¬ (e.1 == k))

structure CacheState (α : Type) where
  enabled : Bool
  mem : List (Key × α × Nat)
  redisUp : Bool
  redis : List (Key × α × Nat)
deriving Repr

def getFromMemory {α : Type} (s : CacheState α) (now : Nat) (k : Key) :
    Option α × CacheState α :=
  match alistGet s.mem k with
  | none => (none, s)
  | some (v, exp) =>
      if now < exp then (some v, s)
      else (none, { s with mem := alistRemove s.mem k })

def setToMemory {α : Type} (s : CacheState α) (now : Nat) (k : Key) (v : α)
    (ttl : Nat) : CacheState α :=
  { s with mem := alistInsert s.mem k v (now + ttl) }

def redisGet {α : Type} (r : List (Key × α × Nat)) (now : Nat) (k : Key) :
    Option α :=
  match alistGet r k with
  | none => none
  | some (v, exp) => if now < exp then some v else none

def cacheGet {α : Type} (s : CacheState α) (now : Nat) (k : Key) :
    Option α × CacheState α :=
  if s.enabled = false then (none, s)
  else
    match getFromMemory s now k with
    | (some v, s1) => (some v, s1)
    | (none, s1) =>
        if s1.redisUp = false then (none, s1)
        else
          match redisGet s1.redis now k with
          | some v => (some v, setToMemory s1 now k v 60)
          | none => (none, s1)

def cacheSet {α : Type} (s : CacheState α) (now : Nat) (k : Key) (v : α)
    (ttl : Nat) : CacheState α :=
  if s.enabled = false then s
  else
    let s1 := setToMemory s now k v (min 60 ttl)
    if s1.redisUp = false then s1
    else { s1 with redis := alistInsert s1.redis k v (now + ttl) }

lemma alistGet_insert_self {α : Type} (m : List (Key × α × Nat)) (k : Key)
    (v : α) (exp : Nat) : alistGet (alistInsert m k v exp) k = some (v, exp) := by
  simp [alistGet, alistInsert, List.find?]

/-- Counterexample to claim C2 as stated: the claim quantifies over every
ttl, but at ttl = 0 the fast-tier entry expires at the instant it is
written (expiry = now + min 60 0 = now, and the strict check now < expiry
fails on the immediate get), so with the shared tier unreachable the
set-then-get round trip returns nothing instead of the stored payload. -/
theorem c2_cache_zero_ttl_counterexample :
    (cacheGet (cacheSet (⟨true, [], false, []⟩ : CacheState Nat) 0 "w" 42 0)
      0 "w").1 = none ∧
    (cacheGet (cacheSet (⟨true, [], false, []⟩ : CacheState Nat) 0 "w" 42 0)
      0 "w").1 ≠ some 42 := by
  refine ⟨rfl, by decide⟩

/-- Claim C2 amended: for every positive ttl, cacheSet followed
immediately by cacheGet on the same key returns the stored payload,
whether or not the shared tier is reachable; the set writes the fast tier
with expiry now + min 60 ttl; when the shared tier is reachable it is
written with expiry now + ttl, and when it is unreachable the failed
shared write leaves the fast-tier write in effect and the shared tier
untouched.  At ttl = 0 the round trip fails, as the counterexample
shows, because the fast-tier entry is already expired when read. -/
theorem c2_cache_round_trip {α : Type} (s : CacheState α) (now : Nat)
    (k : Key) (v : α) (ttl : Nat) (hen : s.enabled = true) (httl : 0 < ttl) :
    (cacheGet (cacheSet s now k v ttl) now k).1 = some v ∧
    alistGet (cacheSet s now k v ttl).mem k = some (v, now + min 60 ttl) ∧
    (s.redisUp = true →
      alistGet (cacheSet s now k v ttl).redis k = some (v, now + ttl)) ∧
    (s.redisUp = false → (cacheSet s now k v ttl).redis = s.redis) := by
  have hmin : 0 < min 60 ttl := lt_min (by norm_num) httl
  have hset : alistGet (cacheSet s now k v ttl).mem k =
      some (v, now + min 60 ttl) := by
    unfold cacheSet setToMemory
    simp only [hen]
    by_cases hr : s.redisUp = false
    · simp [hr, alistGet_insert_self]
    · simp [hr, alistGet_insert_self]
  refine ⟨?_, hset, ?_, ?_⟩
  · have hen2 : (cacheSet s now k v ttl).enabled = true := by
      unfold cacheSet setToMemory
      simp only [hen]
      by_cases hr : s.redisUp = false <;> simp [hr]
    unfold cacheGet getFromMemory
    simp [hen2, hset, Nat.lt_add_of_pos_right hmin]
  · intro hr
    unfold cacheSet setToMemory
    simp [hen, hr, alistGet_insert_self]
  · intro hr
    unfold cacheSet setToMemory
    simp [hen, hr]

/-- Witness for C2: a concrete round trip through an empty cache whose
shared tier is unreachable, with key w, payload 42 and ttl 300. -/
theorem c2_cache_round_trip_witness :
    (0 : Nat) < 300 ∧
    ((cacheGet (cacheSet (⟨true, [], false, []⟩ : CacheState Nat) 0 "w" 42 300)
        0 "w").1 = some 42 ∧
      alistGet (cacheSet (⟨true, [], false, []⟩ : CacheState Nat) 0 "w" 42 300).mem
        "w" = some (42, 0 + min 60 300) ∧
      ((⟨true, [], false, []⟩ : CacheState Nat).redisUp = true →
        alistGet (cacheSet (⟨true, [], false, []⟩ : CacheState Nat) 0 "w" 42
          300).redis "w" = some (42, 0 + 300)) ∧
      ((⟨true, [], false, []⟩ : CacheState Nat).redisUp = false →
        (cacheSet (⟨true, [], false, []⟩ : CacheState Nat) 0 "w" 42 300).redis =
          ([] : List (Key × Nat × Nat)))) :=
  ⟨by decide,
   c2_cache_round_trip (⟨true, [], false, []⟩ : CacheState Nat) 0 "w" 42 300
     rfl (by decide)⟩

/- ----------------------------------------------------------------
   Current-weather transform and fetch.

   Embeds src/utils/transformations.py (get_weather_condition and
   transform_current_weather) and the body of
   WeatherService.get_current_weather in
   src/services/weather_service.py.  Raw JSON numbers are rationals,
   missing dict keys are Option.none, a dict access with default is
   Option.getD, and the head of a daily array is List.head?.  The
   wall-clock timestamp field of the output is omitted.  The nested
   access aqi_data.current.us_aqi is flattened into a single
   optional us_aqi field: none stands for an absent current dict or an
   absent or null us_aqi entry.
   ---------------------------------------------------------------- -/

structure RawCurrent where
  temperature_2m : Option ℚ
  relative_humidity_2m : Option ℚ
  apparent_temperature : Option ℚ
  weather_code : Option ℤ
  pressure_msl : Option ℚ
  wind_speed_10m : Option ℚ
  wind_direction_10m : Option ℚ
  is_day : Option ℤ
  visibility : Option ℚ
deriving DecidableEq, Repr

structure RawDaily where
  sunrise : List String
  sunset : List String
  uv_index_max : List ℚ
deriving DecidableEq, Repr

structure RawWeatherData where
  current : RawCurrent
  daily : RawDaily
deriving DecidableEq, Repr

structure AqiData where
  us_aqi : Option ℚ
deriving DecidableEq, Repr

def weatherCodeTable : List (ℤ × String) :=
  [(0, "Clear sky"), (1, "Mainly clear"), (2, "Partly cloudy"), (3, "Overcast"),
   (45, "Fog"), (48, "Depositing rime fog"),
   (51, "Light drizzle"), (53, "Moderate drizzle"), (55, "Dense drizzle"),
   (56, "Light freezing drizzle"), (57, "Dense freezing drizzle"),
   (61, "Slight rain"), (63, "Moderate rain"), (65, "Heavy rain"),
   (66, "Light freezing rain"), (67, "Heavy freezing rain"),
   (71, "Slight snow fall"), (73, "Moderate snow fall"), (75, "Heavy snow fall"),
   (77, "Snow grains"),
   (80, "Slight rain showers"), (81, "Moderate rain showers"),
   (82, "Violent rain showers"),
   (85, "Slight snow showers"), (86, "Heavy snow showers"),
   (95, "Thunderstorm"), (96, "Thunderstorm with slight hail"),
   (99, "Thunderstorm with heavy hail")]

def get_weather_condition (code : Option ℤ) : String :=
  match code with
  | none => "Unknown"
  | some c =>
      ((weatherCodeTable.find? (fun e => e.1 == c)).map (fun e => e.2)).getD
        "Unknown"

def computeAirQuality (aqi_data : Option AqiData) : ℚ :=
  match aqi_data with
  | none => 1
  | some a =>
      match a.us_aqi with
      | none => 1
      | some q => q

def computeVisibility (c : RawCurrent) : ℚ :=
  match c.visibility with
  | none => 10
  | some vRaw =>
      let v := vRaw / 1000
      if c.weather_code = some 45 ∨ c.weather_code = some 48 then
        let v2 := min v 2
        if c.relative_humidity_2m.getD 0 > 95 then min v2 1 else v2
      else v

structure CurrentWeather where
  location : String
  temperature : Option ℚ
  feelsLike : Option ℚ
  condition : String
  humidity : Option ℚ
  windSpeed : Option ℚ
  windDirection : Option ℚ
  pressure : Option ℚ
  uvIndex : Option ℚ
  visibility : ℚ
  airQuality : ℚ
  sunrise : Option String
  sunset : Option String
  coordinates : ℚ × ℚ
  weatherCode : Option ℤ
  isDay : Bool
deriving DecidableEq, Repr

def transform_current_weather (data : RawWeatherData) (city_name : String)
    (coordinates : ℚ × ℚ) (aqi_data : Option AqiData) : CurrentWeather :=
  { location := city_name
    temperature := data.current.temperature_2m
    feelsLike := data.current.apparent_temperature
    condition := get_weather_condition data.current.weather_code
    humidity := data.current.relative_humidity_2m
    windSpeed := data.current.wind_speed_10m
    windDirection := data.current.wind_direction_10m
    pressure := data.current.pressure_msl
    uvIndex :=
      if data.current.is_day.getD 1 = 0 then some 0
      else data.daily.uv_index_max.head?
    visibility := computeVisibility data.current
    airQuality := computeAirQuality aqi_data
    sunrise := data.daily.sunrise.head?
    sunset := data.daily.sunset.head?
    coordinates := coordinates
    weatherCode := data.current.weather_code
    isDay := data.current.is_day.getD 1 ≠ 0 }

/-- Result of one upstream HTTP call: a parsed successful body, or an
error (request failure or a raise_for_status on a bad status code). -/
inductive UpstreamResp (α : Type) where
  | ok (body : α)
  | httpError
deriving DecidableEq, Repr

inductive FetchError where
  | upstreamError
deriving DecidableEq, Repr

def get_current_weather (lat lon : ℚ)
    (weatherResp : UpstreamResp RawWeatherData)
    (aqiResp : UpstreamResp AqiData) : Except FetchError CurrentWeather :=
  match weatherResp with
  | UpstreamResp.httpError => Except.error FetchError.upstreamError
  | UpstreamResp.ok w =>
      match aqiResp with
      | UpstreamResp.httpError => Except.error FetchError.upstreamError
      | UpstreamResp.ok a =>
          Except.ok (transform_current_weather w "Unknown" (lat, lon) (some a))

/-- Concrete successful forecast body used to probe the air-quality path. -/
def sampleRaw : RawWeatherData :=
  ⟨⟨some 20, some 50, some 19, some 0, some 1013, some 5, some 180, some 1,
    some 10000⟩, ⟨[], [], []⟩⟩

/-- Counterexample to claim C3 as stated: when the forecast call succeeds
but the concurrent air-quality call errors, get_current_weather raises
(aqi_response.raise_for_status()) and the whole call fails; it does not
degrade to a payload with a default air-quality value. -/
theorem c3_aqi_counterexample :
    get_current_weather 0 0 (UpstreamResp.ok sampleRaw) UpstreamResp.httpError =
      Except.error FetchError.upstreamError ∧
    (get_current_weather 0 0 (UpstreamResp.ok sampleRaw)
      UpstreamResp.httpError).isOk = false := ⟨rfl, rfl⟩

/-- Claim C3 amended: get_current_weather fails with UpstreamError when the
primary forecast call errors, and equally when the air-quality call errors;
the default air-quality value 1 is used only when an air-quality response
arrives without a us_aqi reading (or the transform receives no AQI data at
all), never as a substitute for a failed air-quality call. -/
theorem c3_aqi_amended :
    (∀ (lat lon : ℚ) (aqiResp : UpstreamResp AqiData),
      get_current_weather lat lon UpstreamResp.httpError aqiResp =
        Except.error FetchError.upstreamError) ∧
    (∀ (lat lon : ℚ) (w : RawWeatherData),
      get_current_weather lat lon (UpstreamResp.ok w) UpstreamResp.httpError =
        Except.error FetchError.upstreamError) ∧
    (∀ (lat lon : ℚ) (w : RawWeatherData),
      get_current_weather lat lon (UpstreamResp.ok w)
          (UpstreamResp.ok ⟨none⟩) =
        Except.ok (transform_current_weather w "Unknown" (lat, lon)
          (some ⟨none⟩)) ∧
      (transform_current_weather w "Unknown" (lat, lon)
          (some ⟨none⟩)).airQuality = 1) ∧
    (∀ (w : RawWeatherData) (city : String) (coords : ℚ × ℚ),
      (transform_current_weather w city coords none).airQuality = 1) := by
  refine ⟨fun lat lon aqiResp => rfl, fun lat lon w => rfl, ?_, ?_⟩
  · intro lat lon w
    exact ⟨rfl, by simp [transform_current_weather, computeAirQuality]⟩
  · intro w city coords
    simp [transform_current_weather, computeAirQuality]

/-- Witness for the amended C3 theorem at the concrete sample body. -/
theorem c3_aqi_amended_witness :
    get_current_weather 0 0 UpstreamResp.httpError
        (UpstreamResp.ok ⟨some 40⟩) = Except.error FetchError.upstreamError ∧
    get_current_weather 0 0 (UpstreamResp.ok sampleRaw) UpstreamResp.httpError =
      Except.error FetchError.upstreamError ∧
    (get_current_weather 0 0 (UpstreamResp.ok sampleRaw)
        (UpstreamResp.ok ⟨none⟩) =
      Except.ok (transform_current_weather sampleRaw "Unknown" (0, 0)
        (some ⟨none⟩)) ∧
      (transform_current_weather sampleRaw "Unknown" (0, 0)
        (some ⟨none⟩)).airQuality = 1) ∧
    (transform_current_weather sampleRaw "X" (0, 0) none).airQuality = 1 :=
  ⟨c3_aqi_amended.1 0 0 (UpstreamResp.ok ⟨some 40⟩),
   c3_aqi_amended.2.1 0 0 sampleRaw,
   c3_aqi_amended.2.2.1 0 0 sampleRaw,
   c3_aqi_amended.2.2.2 sampleRaw "X" (0, 0)⟩

/-- Claim C9: raw visibility in meters is divided by 1000 to kilometers;
under fog codes 45 or 48 the result is clamped to at most 2 km, and
further to at most 1 km when relative humidity exceeds 95; in particular
raw visibility 8000 m with weather code 45 and humidity 97 comes out at
most 1 km; and the transform reports exactly this computed visibility. -/
theorem c9_fog_visibility :
    (∀ (c : RawCurrent) (vRaw : ℚ), c.visibility = some vRaw →
      ¬(c.weather_code = some 45 ∨ c.weather_code = some 48) →
      computeVisibility c = vRaw / 1000) ∧
    (∀ (c : RawCurrent) (vRaw : ℚ), c.visibility = some vRaw →
      (c.weather_code = some 45 ∨ c.weather_code = some 48) →
      computeVisibility c ≤ 2) ∧
    (∀ (c : RawCurrent) (vRaw : ℚ), c.visibility = some vRaw →
      (c.weather_code = some 45 ∨ c.weather_code = some 48) →
      c.relative_humidity_2m.getD 0 > 95 →
      computeVisibility c ≤ 1) ∧
    (∀ c : RawCurrent, c.visibility = some 8000 → c.weather_code = some 45 →
      c.relative_humidity_2m = some 97 →
      computeVisibility c ≤ 1) ∧
    (∀ (data : RawWeatherData) (city : String) (coords : ℚ × ℚ)
        (aqi : Option AqiData),
      (transform_current_weather data city coords aqi).visibility =
        computeVisibility data.current) := by
  have hfog : ∀ (c : RawCurrent) (vRaw : ℚ), c.visibility = some vRaw →
      (c.weather_code = some 45 ∨ c.weather_code = some 48) →
      computeVisibility c ≤ 2 := by
    intro c vRaw hv hc
    unfold computeVisibility
    rw [hv]
    simp only [hc, if_pos]
    by_cases hh : c.relative_humidity_2m.getD 0 > 95
    · simp only [hh, if_pos]
      calc min (min (vRaw / 1000) 2) 1 ≤ 1 := min_le_right _ _
        _ ≤ 2 := by norm_num
    · simp only [hh, if_neg, ite_false]
      exact min_le_right _ _
  have hfogHumid : ∀ (c : RawCurrent) (vRaw : ℚ), c.visibility = some vRaw →
      (c.weather_code = some 45 ∨ c.weather_code = some 48) →
      c.relative_humidity_2m.getD 0 > 95 →
      computeVisibility c ≤ 1 := by
    intro c vRaw hv hc hh
    unfold computeVisibility
    rw [hv]
    simp only [hc, if_pos, hh]
    exact min_le_right _ _
  refine ⟨?_, hfog, hfogHumid, ?_, ?_⟩
  · intro c vRaw hv hc
    unfold computeVisibility
    rw [hv]
    simp [hc]
  · intro c hv hc hh
    exact hfogHumid c 8000 hv (Or.inl hc) (by rw [hh]; norm_num)
  · intro data city coords aqi
    rfl

/-- Witness for C9 at the concrete fog reading from the specification:
8000 m raw visibility, weather code 45, humidity 97. -/
theorem c9_fog_visibility_witness :
    computeVisibility ⟨some 20, some 50, some 19, some 3, some 1013, some 5,
        some 180, some 1, some 8000⟩ = 8000 / 1000 ∧
    computeVisibility ⟨some 20, some 80, some 19, some 45, some 1013, some 5,
        some 180, some 1, some 8000⟩ ≤ 2 ∧
    computeVisibility ⟨some 20, some 97, some 19, some 45, some 1013, some 5,
        some 180, some 1, some 8000⟩ ≤ 1 ∧
    computeVisibility ⟨some 20, some 97, some 19, some 45, some 1013, some 5,
        some 180, some 1, some 8000⟩ ≤ 1 ∧
    (transform_current_weather sampleRaw "Unknown" (0, 0) none).visibility =
      computeVisibility sampleRaw.current :=
  ⟨c9_fog_visibility.1 _ 8000 rfl (by simp),
   c9_fog_visibility.2.1 _ 8000 rfl (Or.inl rfl),
   c9_fog_visibility.2.2.1 _ 8000 rfl (Or.inl rfl) (by norm_num),
   c9_fog_visibility.2.2.2.1 _ rfl rfl rfl,
   c9_fog_visibility.2.2.2.2 sampleRaw "Unknown" (0, 0) none⟩

/- ----------------------------------------------------------------
   Historical weather fetch.

   Embeds WeatherService.get_historical_weather and
   WeatherService._transform_historical in
   src/services/weather_service.py.  The transform indexes five daily
   arrays at every position of the time array; a too-short array makes
   the Python code raise IndexError, modelled as Option.none.  The
   enclosing try/except Exception of get_historical_weather turns any
   raise (upstream HTTP error or transform error) into the empty list.
   ---------------------------------------------------------------- -/

structure HistDailyRaw where
  time : List String
  temperature_2m_max : List ℚ
  temperature_2m_min : List ℚ
  precipitation_sum : List ℚ
  wind_speed_10m_max : List ℚ
  wind_direction_10m_dominant : List ℚ
deriving DecidableEq, Repr

structure HistDay where
  date : String
  temperature : ℚ
  minTemp : ℚ
  precipitation : ℚ
  windSpeed : ℚ
  windDirection : ℚ
deriving DecidableEq, Repr

def transformHistoricalRow (d : HistDailyRaw) (i : Nat) : Option HistDay := do
  let date ← d.time[i]?
  let tmax ← d.temperature_2m_max[i]?
  let tmin ← d.temperature_2m_min[i]?
  let prec ← d.precipitation_sum[i]?
  let wind ← d.wind_speed_10m_max[i]?
  let wdir ← d.wind_direction_10m_dominant[i]?
  pure ⟨date, tmax, tmin, prec, wind, wdir⟩

/-- Embeds _transform_historical; none for the daily dict models a missing
or empty daily key (the explicit early return of the empty list), and a
none result models an IndexError escaping the loop. -/
def transformHistorical (daily : Option HistDailyRaw) : Option (List HistDay) :=
  match daily with
  | none => some []
  | some d => (List.range d.time.length).mapM (transformHistoricalRow d)

def get_historical_weather (resp : UpstreamResp (Option HistDailyRaw)) :
    List HistDay :=
  match resp with
  | UpstreamResp.httpError => []
  | UpstreamResp.ok d =>
      match transformHistorical d with
      | none => []
      | some h => h

/-- Claim C6: the historical fetch returns the empty sequence on any
failure — an upstream HTTP error, or a transform error (IndexError on a
short daily array) — instead of propagating the exception; on success it
returns the transformed rows. -/
theorem c6_historical_degrades_to_empty :
    get_historical_weather UpstreamResp.httpError = [] ∧
    (∀ d : Option HistDailyRaw, transformHistorical d = none →
      get_historical_weather (UpstreamResp.ok d) = []) ∧
    (∀ (d : Option HistDailyRaw) (h : List HistDay),
      transformHistorical d = some h →
      get_historical_weather (UpstreamResp.ok d) = h) := by
  refine ⟨rfl, ?_, ?_⟩
  · intro d hd
    simp [get_historical_weather, hd]
  · intro d h hd
    simp [get_historical_weather, hd]

/-- Witness for C6: a daily block whose time array has one entry but whose
temperature arrays are empty raises IndexError in the transform, and the
fetch returns the empty list; a consistent one-row block succeeds. -/
theorem c6_historical_degrades_to_empty_witness :
    transformHistorical (some ⟨["2024-01-01"], [], [], [], [], []⟩) = none ∧
    get_historical_weather
      (UpstreamResp.ok (some ⟨["2024-01-01"], [], [], [], [], []⟩)) = [] ∧
    transformHistorical
      (some ⟨["2024-01-01"], [7], [2], [0], [13], [180]⟩) =
        some [⟨"2024-01-01", 7, 2, 0, 13, 180⟩] ∧
    get_historical_weather
      (UpstreamResp.ok (some ⟨["2024-01-01"], [7], [2], [0], [13], [180]⟩)) =
        [⟨"2024-01-01", 7, 2, 0, 13, 180⟩] :=
  ⟨by decide,
   c6_historical_degrades_to_empty.2.1
     (some ⟨["2024-01-01"], [], [], [], [], []⟩) (by decide),
   by decide,
   c6_historical_degrades_to_empty.2.2
     (some ⟨["2024-01-01"], [7], [2], [0], [13], [180]⟩)
     [⟨"2024-01-01", 7, 2, 0, 13, 180⟩] (by decide)⟩

/- ----------------------------------------------------------------
   Alert evaluation.

   Embeds AlertService in src/services/alert_service.py.  An alert
   document is the dict stored in the alerts collection; the history
   collection and the SSE pending-event queue are append-only lists.
   Document timestamps are seconds (Nat); the cooldown comparison
   (utcnow - lastTriggered).total_seconds() < 86400 becomes
   now - lt < 86400 with truncated Nat subtraction, which agrees with
   the Python comparison also when lastTriggered lies in the future
   (both skip).  Metric and comparison names are the raw strings the
   code matches on, so unrecognized strings take the default branches.
   ---------------------------------------------------------------- -/

structure AlertData where
  userId : String
  name : String
  alertType : String
  thresholdValue : ℚ
  comparison : String
  latitude : ℚ
  longitude : ℚ
  location : String
  notificationMethods : List String
  lastTriggered : Option Nat
  triggerCount : Int
  active : Bool
deriving DecidableEq, Repr

structure WeatherVals where
  temperature : Option ℚ
  humidity : Option ℚ
  windSpeed : Option ℚ
  precipitation : Option ℚ
deriving DecidableEq, Repr

def metricValue (alertType : String) (w : WeatherVals) : ℚ :=
  if alertType = "temperature" then w.temperature.getD 0
  else if alertType = "humidity" then w.humidity.getD 0
  else if alertType = "wind_speed" then w.windSpeed.getD 0
  else if alertType = "precipitation" then w.precipitation.getD 0
  else 0

def comparisonMet (comparison : String) (currentValue threshold : ℚ) : Bool :=
  if comparison = "greater_than" then decide (currentValue > threshold)
  else if comparison = "less_than" then decide (currentValue < threshold)
  else if comparison = "equals" then decide (currentValue = threshold)
  else false

def check_condition (alert : AlertData) (w : WeatherVals) : Bool × ℚ :=
  let currentValue := metricValue alert.alertType w
  (comparisonMet alert.comparison currentValue alert.thresholdValue,
   currentValue)

structure HistoryRecord where
  alertId : String
  userId : String
  alertName : String
  triggeredAt : Nat
  currentValue : ℚ
  thresholdValue : ℚ
  location : String
  notificationSent : Bool
  notificationMethods : List String
deriving DecidableEq, Repr

/-- Event pushed into the notification sink by
SSEManager.send_alert_trigger: target user plus alert id, alert name,
observed value and threshold. -/
structure SinkEvent where
  userId : String
  alertId : String
  alertName : String
  currentValue : ℚ
  thresholdValue : ℚ
deriving DecidableEq, Repr

structure AlertSystemState where
  doc : AlertData
  history : List HistoryRecord
  sink : List SinkEvent
deriving DecidableEq, Repr

def cooldownSeconds : Nat := 86400

def performTrigger (now : Nat) (alertId : String) (st : AlertSystemState)
    (currentValue : ℚ) : AlertSystemState :=
  let doc2 : AlertData :=
    { st.doc with
      lastTriggered := some now
      triggerCount := st.doc.triggerCount + 1 }
  { doc := doc2
    history := st.history ++
      [⟨alertId, st.doc.userId, st.doc.name, now, currentValue,
        st.doc.thresholdValue, st.doc.location, true,
        st.doc.notificationMethods⟩]
    sink := st.sink ++
      [⟨st.doc.userId, alertId, st.doc.name, currentValue,
        st.doc.thresholdValue⟩] }

def trigger_alert (now : Nat) (alertId : String) (st : AlertSystemState)
    (currentValue : ℚ) : AlertSystemState :=
  match st.doc.lastTriggered with
  | some lt =>
      if now - lt < cooldownSeconds then st
      else performTrigger now alertId st currentValue
  | none => performTrigger now alertId st currentValue

/-- Embeds _process_alert: fetch current weather at the alert location
(an upstream failure is caught by the per-alert handler, leaving all
state unchanged), evaluate the condition, and trigger when it holds. -/
def process_alert (now : Nat) (alertId : String) (st : AlertSystemState)
    (fetch : UpstreamResp WeatherVals) : AlertSystemState :=
  match fetch with
  | UpstreamResp.httpError => st
  | UpstreamResp.ok w =>
      let r := check_condition st.doc w
      if r.1 then trigger_alert now alertId st r.2 else st

lemma trigger_alert_cooldown_skip (st : AlertSystemState) (now : Nat)
    (aid : String) (v : ℚ) (lt : Nat) (h1 : st.doc.lastTriggered = some lt)
    (h2 : now - lt < cooldownSeconds) : trigger_alert now aid st v = st := by
  unfold trigger_alert
  rw [h1]
  simp [h2]

/-- Claim C7: condition evaluation uses exact equality for the equals
comparison (no epsilon tolerance) and strict inequality for greater_than
and less_than; an observed value exactly equal to the threshold satisfies
equals and satisfies neither greater_than nor less_than; and
check_condition applies exactly these comparisons to the extracted
metric value. -/
theorem c7_threshold_equality :
    (∀ t : ℚ, comparisonMet "equals" t t = true ∧
      comparisonMet "greater_than" t t = false ∧
      comparisonMet "less_than" t t = false) ∧
    (∀ v t : ℚ, comparisonMet "greater_than" v t = decide (v > t) ∧
      comparisonMet "less_than" v t = decide (v < t) ∧
      comparisonMet "equals" v t = decide (v = t)) ∧
    (∀ (alert : AlertData) (w : WeatherVals) (t : ℚ),
      alert.thresholdValue = t → alert.alertType = "temperature" →
      w.temperature = some t →
      (alert.comparison = "equals" → (check_condition alert w).1 = true) ∧
      (alert.comparison = "greater_than" →
        (check_condition alert w).1 = false) ∧
      (alert.comparison = "less_than" →
        (check_condition alert w).1 = false)) := by
  refine ⟨?_, ?_, ?_⟩
  · intro t
    refine ⟨?_, ?_, ?_⟩ <;> simp [comparisonMet]
  · intro v t
    refine ⟨?_, ?_, ?_⟩ <;> simp [comparisonMet]
  · intro alert w t ht hty hv
    have hm : metricValue alert.alertType w = t := by
      rw [hty]; simp [metricValue, hv]
    refine ⟨?_, ?_, ?_⟩ <;> intro hc <;>
      simp [check_condition, hm, hc, ht, comparisonMet]

def eqAlert : AlertData :=
  ⟨"u1", "heat", "temperature", 30, "equals", 0, 0, "City", ["email"],
   none, 0, true⟩

def gtAlert : AlertData :=
  ⟨"u1", "heat", "temperature", 30, "greater_than", 0, 0, "City", ["email"],
   none, 0, true⟩

def ltAlert : AlertData :=
  ⟨"u1", "heat", "temperature", 30, "less_than", 0, 0, "City", ["email"],
   none, 0, true⟩

/-- Weather snapshot whose temperature equals the threshold 30. -/
def atThresholdWeather : WeatherVals := ⟨some 30, some 50, some 5, some 0⟩

/-- Witness for C7 at threshold 30 and observed temperature 30. -/
theorem c7_threshold_equality_witness :
    (comparisonMet "equals" 30 30 = true ∧
      comparisonMet "greater_than" 30 30 = false ∧
      comparisonMet "less_than" 30 30 = false) ∧
    (check_condition eqAlert atThresholdWeather).1 = true ∧
    (check_condition gtAlert atThresholdWeather).1 = false ∧
    (check_condition ltAlert atThresholdWeather).1 = false :=
  ⟨c7_threshold_equality.1 30,
   (c7_threshold_equality.2.2 eqAlert atThresholdWeather 30 rfl rfl rfl).1 rfl,
   (c7_threshold_equality.2.2 gtAlert atThresholdWeather 30 rfl rfl rfl).2.1 rfl,
   (c7_threshold_equality.2.2 ltAlert atThresholdWeather 30 rfl rfl rfl).2.2 rfl⟩

/-- Claim C4: when the condition holds the evaluation routes the observed
value into _trigger_alert; a lastTriggered timestamp less than 86400
seconds old suppresses the trigger entirely; otherwise lastTriggered is
set to now, triggerCount is incremented by 1, a history record with the
observed value and threshold is appended, and a sink event carrying the
user, alert id, alert name, observed value and threshold is pushed; and
once triggered at time t, every further evaluation inside the 24-hour
window leaves the state exactly unchanged, however many cycles run. -/
theorem c4_trigger_cooldown :
    (∀ (now : Nat) (aid : String) (st : AlertSystemState) (w : WeatherVals),
      (check_condition st.doc w).1 = true →
      process_alert now aid st (UpstreamResp.ok w) =
        trigger_alert now aid st (check_condition st.doc w).2) ∧
    (∀ (st : AlertSystemState) (now : Nat) (aid : String) (v : ℚ) (lt : Nat),
      st.doc.lastTriggered = some lt → now - lt < cooldownSeconds →
      trigger_alert now aid st v = st) ∧
    (∀ (st : AlertSystemState) (now : Nat) (aid : String) (v : ℚ),
      (st.doc.lastTriggered = none ∨
        ∃ lt, st.doc.lastTriggered = some lt ∧ cooldownSeconds ≤ now - lt) →
      (trigger_alert now aid st v).doc.lastTriggered = some now ∧
      (trigger_alert now aid st v).doc.triggerCount =
        st.doc.triggerCount + 1 ∧
      (trigger_alert now aid st v).history = st.history ++
        [⟨aid, st.doc.userId, st.doc.name, now, v, st.doc.thresholdValue,
          st.doc.location, true, st.doc.notificationMethods⟩] ∧
      (trigger_alert now aid st v).sink = st.sink ++
        [⟨st.doc.userId, aid, st.doc.name, v, st.doc.thresholdValue⟩]) ∧
    (∀ (st : AlertSystemState) (t : Nat) (aid : String)
        (evals : List (Nat × ℚ)),
      st.doc.lastTriggered = some t →
      (∀ e ∈ evals, e.1 - t < cooldownSeconds) →
      evals.foldl (fun s e => trigger_alert e.1 aid s e.2) st = st) := by
  refine ⟨?_, trigger_alert_cooldown_skip, ?_, ?_⟩
  · intro now aid st w hc
    simp [process_alert, hc]
  · intro st now aid v h
    have hperf : trigger_alert now aid st v = performTrigger now aid st v := by
      rcases h with hnone | ⟨lt, hlt, hge⟩
      · unfold trigger_alert
        rw [hnone]
      · unfold trigger_alert
        rw [hlt]
        simp [Nat.not_lt.mpr hge]
    rw [hperf]
    simp [performTrigger]
  · intro st t aid evals h1
    induction evals with
    | nil => intro h2; rfl
    | cons e rest ih =>
        intro h2
        have hs : trigger_alert e.1 aid st e.2 = st :=
          trigger_alert_cooldown_skip st e.1 aid e.2 t h1
            (h2 e (List.mem_cons_self e rest))
        simp only [List.foldl_cons, hs]
        exact ih (fun x hx => h2 x (List.mem_cons_of_mem e hx))

/-- State for the specification example: threshold 30, comparison
greater_than, never triggered before. -/
def specState : AlertSystemState := ⟨gtAlert, [], []⟩

/-- Weather snapshot with observed temperature 31. -/
def hotWeather : WeatherVals := ⟨some 31, some 50, some 5, some 0⟩

/-- The spec example alert after its first trigger at time 1000. -/
def triggeredState : AlertSystemState :=
  trigger_alert 1000 "a1" specState 31

/-- Witness for C4 running the specification example: observed 31 against
threshold 30 under greater_than triggers at time 1000, and evaluation
cycles every 900 seconds for the rest of the 24-hour window leave the
state unchanged. -/
theorem c4_trigger_cooldown_witness :
    process_alert 1000 "a1" specState (UpstreamResp.ok hotWeather) =
      trigger_alert 1000 "a1" specState
        (check_condition specState.doc hotWeather).2 ∧
    trigger_alert 1900 "a1" triggeredState 31 = triggeredState ∧
    ((trigger_alert 1000 "a1" specState 31).doc.lastTriggered = some 1000 ∧
      (trigger_alert 1000 "a1" specState 31).doc.triggerCount =
        specState.doc.triggerCount + 1 ∧
      (trigger_alert 1000 "a1" specState 31).history = specState.history ++
        [⟨"a1", specState.doc.userId, specState.doc.name, 1000, 31,
          specState.doc.thresholdValue, specState.doc.location, true,
          specState.doc.notificationMethods⟩] ∧
      (trigger_alert 1000 "a1" specState 31).sink = specState.sink ++
        [⟨specState.doc.userId, "a1", specState.doc.name, 31,
          specState.doc.thresholdValue⟩]) ∧
    [(1900, (31 : ℚ)), (2800, 31), (80000, 31)].foldl
      (fun s e => trigger_alert e.1 "a1" s e.2) triggeredState =
        triggeredState :=
  ⟨c4_trigger_cooldown.1 1000 "a1" specState hotWeather (by decide),
   c4_trigger_cooldown.2.1 triggeredState 1900 "a1" 31 1000 (by decide)
     (by decide),
   c4_trigger_cooldown.2.2.1 specState 1000 "a1" 31 (Or.inl rfl),
   c4_trigger_cooldown.2.2.2 triggeredState 1000 "a1"
     [(1900, 31), (2800, 31), (80000, 31)] (by decide) (by decide)⟩

/-- Claim C10: when the cooldown suppresses a trigger, _trigger_alert
returns without any write: the state is unchanged, so lastTriggered,
triggerCount, the history collection and the sink queue all keep their
previous values. -/
theorem c10_cooldown_frame (st : AlertSystemState) (now : Nat) (aid : String)
    (v : ℚ) (lt : Nat) (h1 : st.doc.lastTriggered = some lt)
    (h2 : now - lt < cooldownSeconds) :
    trigger_alert now aid st v = st ∧
    (trigger_alert now aid st v).doc.lastTriggered = st.doc.lastTriggered ∧
    (trigger_alert now aid st v).doc.triggerCount = st.doc.triggerCount ∧
    (trigger_alert now aid st v).history = st.history ∧
    (trigger_alert now aid st v).sink = st.sink := by
  have h := trigger_alert_cooldown_skip st now aid v lt h1 h2
  exact ⟨h, by rw [h], by rw [h], by rw [h], by rw [h]⟩

/-- Witness for C10: the example alert triggered at time 1000 and
re-evaluated at time 1900 keeps every field unchanged. -/
theorem c10_cooldown_frame_witness :
    trigger_alert 1900 "a1" triggeredState 31 = triggeredState ∧
    (trigger_alert 1900 "a1" triggeredState 31).doc.lastTriggered =
      triggeredState.doc.lastTriggered ∧
    (trigger_alert 1900 "a1" triggeredState 31).doc.triggerCount =
      triggeredState.doc.triggerCount ∧
    (trigger_alert 1900 "a1" triggeredState 31).history =
      triggeredState.history ∧
    (trigger_alert 1900 "a1" triggeredState 31).sink = triggeredState.sink :=
  c10_cooldown_frame triggeredState 1900 "a1" 31 1000 (by decide) (by decide)

/- ----------------------------------------------------------------
   Monitoring loop.

   Embeds AlertService.start_monitoring and AlertService.check_alerts.
   A PyResult models one Python operation: a normal return or a raised
   exception.  check_alerts wraps its whole body (streaming the active
   alerts and processing each) in try/except Exception, so a failure
   while loading the alert set is logged and the method returns
   normally; the raised branch of the while-loop in start_monitoring,
   which would sleep 60 seconds, is reached only if an exception
   escapes check_alerts or the sleep itself.
   ---------------------------------------------------------------- -/

inductive PyResult (α : Type) where
  | ret (a : α)
  | raised
deriving DecidableEq, Repr

def normalIntervalSeconds : Nat := 900

def errorRetrySeconds : Nat := 60

def runCycleBody (now : Nat)
    (alerts : List (String × AlertSystemState × UpstreamResp WeatherVals)) :
    List (String × AlertSystemState) :=
  alerts.map (fun a => (a.1, process_alert now a.1 a.2.1 a.2.2))

def check_alerts (now : Nat)
    (load : PyResult (List (String × AlertSystemState ×
      UpstreamResp WeatherVals))) :
    PyResult (List (String × AlertSystemState)) :=
  match load with
  | PyResult.raised => PyResult.ret []
  | PyResult.ret alerts => PyResult.ret (runCycleBody now alerts)

/-- One iteration of the start_monitoring while-loop: run check_alerts,
then sleep 900 seconds if it returned normally and 60 seconds if it
raised; the running flag is untouched either way, so the loop continues. -/
def monitorIteration (now : Nat) (isRunning : Bool)
    (load : PyResult (List (String × AlertSystemState ×
      UpstreamResp WeatherVals))) : Nat × Bool :=
  match check_alerts now load with
  | PyResult.ret _ => (normalIntervalSeconds, isRunning)
  | PyResult.raised => (errorRetrySeconds, isRunning)

/-- Counterexample to claim C5 as stated: when loading the set of active
alerts raises, the exception is swallowed inside check_alerts itself, so
the loop sleeps the NORMAL 900-second interval, not the shortened
60-second retry delay the claim asserts. -/
theorem c5_cycle_error_counterexample :
    check_alerts 0 PyResult.raised = PyResult.ret [] ∧
    (monitorIteration 0 true PyResult.raised).1 = 900 ∧
    (monitorIteration 0 true PyResult.raised).1 ≠ 60 := by
  refine ⟨rfl, rfl, by decide⟩

/-- Claim C5 amended: a failure loading the set of active alerts is
caught inside check_alerts, which returns normally, so the loop waits the
normal 900-second interval (not the shortened 60-second delay, whose
branch is reachable only by an exception escaping check_alerts) and the
loop never terminates: the running flag survives every iteration. -/
theorem c5_cycle_error_amended :
    (∀ (now : Nat)
      (load : PyResult (List (String × AlertSystemState ×
        UpstreamResp WeatherVals))),
      ∃ r, check_alerts now load = PyResult.ret r) ∧
    (∀ (now : Nat) (flag : Bool),
      monitorIteration now flag PyResult.raised =
        (normalIntervalSeconds, flag)) ∧
    (∀ (now : Nat) (flag : Bool)
      (load : PyResult (List (String × AlertSystemState ×
        UpstreamResp WeatherVals))),
      (monitorIteration now flag load).2 = flag) := by
  refine ⟨?_, ?_, ?_⟩
  · intro now load
    cases load with
    | ret alerts => exact ⟨runCycleBody now alerts, rfl⟩
    | raised => exact ⟨[], rfl⟩
  · intro now flag
    rfl
  · intro now flag load
    cases load with
    | ret alerts => rfl
    | raised => rfl

/-- Witness for the amended C5 theorem at a concrete failing load and a
concrete successful empty load. -/
theorem c5_cycle_error_amended_witness :
    (∃ r, check_alerts 3 PyResult.raised = PyResult.ret r) ∧
    monitorIteration 3 true PyResult.raised = (normalIntervalSeconds, true) ∧
    (monitorIteration 3 true (PyResult.ret [])).2 = true :=
  ⟨c5_cycle_error_amended.1 3 PyResult.raised,
   c5_cycle_error_amended.2.1 3 true,
   c5_cycle_error_amended.2.2 3 true (PyResult.ret [])⟩

end WeatherBackend
